import Mathlib

/-!
Shallow embedding of the `confluenceapi` client library
(`src/confluenceapi/client.py`, `src/client.py`, `src/confluenceapi/pagebuilder.py`).

The client resolves human-readable names (space name, page title) to server
identifiers and performs page / attachment CRUD over the Confluence REST API.
Remote state is modelled by an explicit `Server` value holding spaces, pages and
attachments; each REST query the client issues becomes a pure function of that
state, and the client-side logic is translated statement by statement from the
Python source.  Python exceptions (`ValueError`, `AssertionError`, `TypeError`,
`KeyError`) become the `PyError` sum type, and fallible operations return
`Except PyError`.
-/

namespace ConfluenceApi

/-- Python exception values raised by the client, carrying their message. -/
inductive PyError where
  | valueError (msg : String)
  | assertionError (msg : String)
  | typeError (msg : String)
  | keyError (msg : String)
deriving DecidableEq

/-- A space on the remote server: a short key and a display title. -/
structure Space where
  key : String
  title : String
deriving DecidableEq

/-- A page on the remote server: server-assigned id, title, owning space key,
storage-format body and current version number. -/
structure PageRec where
  id : Nat
  title : String
  spaceKey : String
  body : String
  version : Nat
deriving DecidableEq

/-- An attachment on the remote server: server-assigned id, filename (the
`title` field of the REST result) and owning page id. -/
structure AttachmentRec where
  id : String
  title : String
  pageId : Nat
deriving DecidableEq

/-- The remote Confluence state the embedded REST endpoints read and write. -/
structure Server where
  spaces : List Space
  pages : List PageRec
  attachments : List AttachmentRec
deriving DecidableEq

/-- Character-list core of Python `s.rsplit(sep, 1)[-1]` with `sep` a slash:
scanning left to right, a slash resets the accumulator, any other character is
appended, so the result is the text after the last slash (the whole string when
no slash occurs). -/
def rsplitLastAux (l : List Char) : List Char :=
  l.foldl (fun acc c => if c = '/' then [] else acc ++ [c]) []

/-- Python `s.rsplit(sep, 1)[-1]` for a slash separator, as used on the
`_expandable.space` REST field (`client.py` lines 121, 289) to extract a space
key from a path of shape `/rest/api/space/KEY`. -/
def rsplitLast (s : String) : String :=
  ⟨rsplitLastAux s.data⟩

/-- Python `os.path.basename` on a posix path: the component after the last
slash (used by `update_attachment`, `client.py` line 185). -/
def os_path_basename (path : String) : String :=
  rsplitLast path

/-- Python truthiness of an optional string: `None` and the empty string are
falsy (this is the test `if parent_page_name:` performs, `client.py` line 370). -/
def pyTruthy (s : Option String) : Bool :=
  match s with
  | none => false
  | some t => t != ""

/-- One row of the space search response as the client reads it: only the
`_expandable.space` path, of shape `/rest/api/space/KEY`, is consumed. -/
structure SpaceResult where
  expandableSpace : String
deriving DecidableEq

/-- The `_expandable.space` path the server reports for a space key. -/
def spacePath (key : String) : String :=
  "/rest/api/space/" ++ key

/-- Model of `GET content/search?cql=space.title~NAME&limit=1` (`client.py`
line 286): spaces whose title matches the queried name, capped at one row by
the `limit=1` query parameter. -/
def spaceSearch (s : Server) (name : String) : List SpaceResult :=
  ((s.spaces.filter (fun sp => sp.title == name)).map
    (fun sp => ⟨spacePath sp.key⟩)).take 1

/-- Response handling of `Confluence._get_space_key` (`client.py` lines
288-294): exactly one result yields the key extracted from the expandable
space path; more than one raises the duplicate-space `ValueError`; zero raises
the not-found `ValueError`. -/
def get_space_key_lookup (results : List SpaceResult) : Except PyError String :=
  match results with
  | [r] => .ok (rsplitLast r.expandableSpace)
  | _ :: _ :: _ => .error (.valueError "Duplicate space names found please use the spacekey")
  | [] => .error (.valueError "Space not found, has it been deleted or is it called something else?")

/-- `Confluence._verify_space_key` (`client.py` lines 380-392): the space
endpoint is queried by key and anything other than exactly one result raises a
`ValueError`. -/
def verify_space_key (s : Server) (space_key : String) : Except PyError Unit :=
  if (s.spaces.filter (fun sp => sp.key == space_key)).length ≠ 1 then
    .error (.valueError ("space_key: " ++ space_key ++ " doesnt exist"))
  else
    .ok ()

/-- `Confluence._get_space_key` (`client.py` lines 265-294): with the
`space_name_as_key` flag set the given name is verified as a key and returned
unchanged; otherwise the name is resolved through the search query. -/
def get_space_key (s : Server) (space_name : String) (space_name_as_key : Bool) :
    Except PyError String :=
  if space_name_as_key then
    match verify_space_key s space_name with
    | .error e => .error e
    | .ok _ => .ok space_name
  else
    get_space_key_lookup (spaceSearch s space_name)

/-- Model of `GET content?title=TITLE&spaceKey=KEY` (`client.py` line 257):
pages matching both the queried title and space key, in server order. -/
def pageQuery (s : Server) (title key : String) : List PageRec :=
  s.pages.filter (fun p => p.title == title && p.spaceKey == key)

/-- Response handling of `Confluence._get_pageid` (`client.py` lines 259-262):
a nonempty result list yields the id of the first row (`results[0]`), an empty
one raises the page-not-found `ValueError` (message spelling as in the source). -/
def get_pageid_core (results : List PageRec) : Except PyError Nat :=
  match results with
  | [] => .error (.valueError "Page not found, has it been deleted or is it in a differant space?")
  | r :: _ => .ok r.id

/-- `Confluence._get_pageid` (`client.py` lines 241-262): resolve the space
key, query pages by title and key, then read the first result. -/
def get_pageid (s : Server) (page_name space_name : String) (space_name_as_key : Bool) :
    Except PyError Nat :=
  match get_space_key s space_name space_name_as_key with
  | .error e => .error e
  | .ok key => get_pageid_core (pageQuery s page_name key)

/-- The fields of the `GET content/ID?expand=version` response that
`update_page` reads: `title`, `_expandable.space` and `version.number`. -/
structure VersionInfo where
  title : String
  expandableSpace : String
  versionNumber : Nat
deriving DecidableEq

/-- Model of `Confluence._get_version` (`client.py` lines 224-238) combined
with the JSON field accesses in `update_page`: the first page with the given
id supplies the three fields, a missing page yields `none` (the subsequent
dictionary accesses would raise `KeyError`). -/
def get_version (s : Server) (pageid : Nat) : Option VersionInfo :=
  (s.pages.find? (fun p => p.id == pageid)).map
    (fun p => ⟨p.title, spacePath p.spaceKey, p.version⟩)

/-- The update payload `update_page` submits (`client.py` lines 117-124):
id, type `page` (constant, omitted), title, space key, body, version number. -/
structure UpdatePayload where
  id : Nat
  title : String
  spaceKey : String
  body : String
  versionNumber : Nat
deriving DecidableEq

/-- Per-page effect of the remote `PUT content/ID` endpoint (spec sections 3
and 6): the addressed page accepts a submitted version equal to its current
version plus one and stores the payload fields; any other page, or a stale
version, is left unchanged.  Ids are server-assigned and never change. -/
def putFn (pageid : Nat) (pl : UpdatePayload) : PageRec → PageRec :=
  fun p =>
    if p.id == pageid && pl.versionNumber == p.version + 1 then
      { p with title := pl.title, spaceKey := pl.spaceKey,
               body := pl.body, version := pl.versionNumber }
    else p

/-- Model of the remote `PUT content/ID` endpoint: `putFn` applied across the
page list; spaces and attachments are untouched. -/
def serverPut (s : Server) (pageid : Nat) (pl : UpdatePayload) : Server :=
  { s with pages := s.pages.map (putFn pageid pl) }

/-- `Confluence.update_page` (`client.py` lines 95-128): resolve the page id,
fetch the current version metadata, build the payload with the fetched version
number plus one, and issue the PUT.  The returned pair is the submitted payload
and the server state after the PUT. -/
def update_page (s : Server) (page_name space_name body : String)
    (space_name_as_key : Bool) : Except PyError (UpdatePayload × Server) :=
  match get_pageid s page_name space_name space_name_as_key with
  | .error e => .error e
  | .ok pageid =>
    match get_version s pageid with
    | none => .error (.keyError "title")
    | some page_info =>
      let new_data : UpdatePayload :=
        { id := pageid, title := page_info.title,
          spaceKey := rsplitLast page_info.expandableSpace,
          body := body, versionNumber := page_info.versionNumber + 1 }
      .ok (new_data, serverPut s pageid new_data)

/-- The payload `add_page` posts (`client.py` lines 358-372): type `page`,
title, space key, storage body, and the `ancestors` list only when the field
was added (`none` models the absent field). -/
structure CreatePayload where
  ptype : String
  title : String
  spaceKey : String
  body : String
  ancestors : Option (List Nat)
deriving DecidableEq

/-- `Confluence.add_page` (`client.py` lines 343-377): resolve the space key,
build the base payload, and only when `parent_page_name` is truthy (Python:
neither `None` nor empty) resolve the parent and set `ancestors` to the
one-element list holding its id. -/
def add_page (s : Server) (title space_name : String)
    (parent_page_name : Option String) (body : String)
    (space_name_as_key : Bool) : Except PyError CreatePayload :=
  match get_space_key s space_name space_name_as_key with
  | .error e => .error e
  | .ok space_key =>
    let payload : CreatePayload :=
      { ptype := "page", title := title, spaceKey := space_key,
        body := body, ancestors := none }
    if pyTruthy parent_page_name then
      match get_pageid s (parent_page_name.getD "") space_name space_name_as_key with
      | .error e => .error e
      | .ok parent_page_id => .ok { payload with ancestors := some [parent_page_id] }
    else
      .ok payload

/-- `Confluence._get_attachmentid` (`client.py` lines 297-319): list the
attachments of the page, return the id of the first one whose title equals the
requested filename; with no match the for-else branch prints
`No attachment found` and the function falls through, returning `None`.
The second component records what was printed. -/
def get_attachmentid (s : Server) (attachment_name : String) (pageid : Nat) :
    Option String × List String :=
  match (s.attachments.filter (fun a => a.pageId == pageid)).find?
      (fun a => a.title == attachment_name) with
  | some a => (some a.id, [])
  | none => (none, ["No attachment found"])

/-- Python concatenation of a string with a possibly-`None` value: `str + str`
concatenates, `str + None` raises `TypeError` (this is what
`... + attachmentid + ...` does on `client.py` line 195 when the lookup
returned `None`). -/
def pyStrConcat (a : String) (b : Option String) : Except PyError String :=
  match b with
  | some t => .ok (a ++ t)
  | none => .error (.typeError "can only concatenate str (not NoneType) to str")

/-- The POST request `update_attachment` issues: target url (relative to the
api root), uploaded file path and optional comment. -/
structure PostRequest where
  url : String
  filepath : String
  comment : Option String
deriving DecidableEq

/-- `Confluence.update_attachment` (`client.py` lines 164-198): resolve the
page id, look up the attachment id by the basename of the file path, then
build the POST url by string concatenation — which raises `TypeError` when the
lookup produced `None`.  The result pairs the issued request with the lines
printed by the lookup. -/
def update_attachment (s : Server) (filepath page_name space_name : String)
    (comment : Option String) (space_name_as_key : Bool) :
    Except PyError (PostRequest × List String) :=
  match get_pageid s page_name space_name space_name_as_key with
  | .error e => .error e
  | .ok pageid =>
    let attachment_name := os_path_basename filepath
    let looked := get_attachmentid s attachment_name pageid
    match pyStrConcat ("content/" ++ toString pageid ++ "/child/attachment/") looked.1 with
    | .error e => .error e
    | .ok mid => .ok ({ url := mid ++ "/data", filepath := filepath, comment := comment }, looked.2)

/-- Rendering of one cell by the external pandas `to_html` (modelled from the
source comment in `pagebuilder.py` lines 84-85 — pandas truncates a cell after
`display.max_colwidth` characters unless the option is unset): with a width
limit `w`, a cell longer than `w` is cut to its first `w - 3` characters
followed by three dots; without a limit the cell is kept whole. -/
def renderCell (maxColwidth : Option Nat) (cell : String) : String :=
  match maxColwidth with
  | none => cell
  | some w => if w < cell.length then ⟨cell.data.take (w - 3)⟩ ++ "..." else cell

/-- Model of the external pandas `DataFrame.to_html`: a data frame is the list
of its rows of already-stringified cells, and each cell is rendered through
`renderCell` with the active `display.max_colwidth` option.  Only the table
and cell structure matters to the claims, not the exact pandas attributes. -/
def dfToHtml (rows : List (List String)) (maxColwidth : Option Nat) : String :=
  "<table border=1 class=dataframe><tbody>"
  ++ String.join (rows.map (fun r =>
      "<tr>"
      ++ String.join (r.map (fun c => "<td>" ++ renderCell maxColwidth c ++ "</td>"))
      ++ "</tr>"))
  ++ "</tbody></table>"

/-- `Confluence.add_table_to_page` (`src/client.py` lines 104-118): render the
data frame with plain `df.to_html()` — under the pandas default
`display.max_colwidth` of 50 — and hand the result to `update_page` as the new
body. -/
def add_table_to_page (s : Server) (page_name space_name : String)
    (df : List (List String)) : Except PyError (UpdatePayload × Server) :=
  update_page s page_name space_name (dfToHtml df (some 50)) false

end ConfluenceApi

namespace ConfluencePageBuilder

open ConfluenceApi

/-- `ConfluencePageBuilder.__init__` (`pagebuilder.py` lines 51-52): the
accumulator starts empty. -/
def init : String :=
  ""

/-- The allowed heading tags, `[h+str(x) for x in range(1,8)]`
(`pagebuilder.py` line 62): h1 through h7. -/
def headingChoices : List String :=
  (List.range' 1 7).map (fun x => "h" ++ toString x)

/-- The rendered `add_title` template (`pagebuilder.py` lines 65-67): the
literal between the triple quotes is a newline, twelve spaces, the heading
element, a newline and twelve more spaces, with the two placeholders
substituted. -/
def titleTemplate (title heading : String) : String :=
  "\n            <" ++ heading ++ ">" ++ title ++ "</" ++ heading ++ ">\n            "

/-- `ConfluencePageBuilder.add_title` (`pagebuilder.py` lines 55-68): assert
the heading is one of h1..h7, then append the rendered template.  The first
component is the accumulator after the call (unchanged when the assertion
fires, because the append is never reached); the second is the outcome. -/
def add_title (html : String) (title : String) (heading : String) :
    String × Except PyError Unit :=
  if heading ∈ headingChoices then
    (html ++ titleTemplate title heading, .ok ())
  else
    (html, .error (.assertionError "heading should be a string representating html heading tag, one of h1..h7"))

/-- The allowed warning macro types (`pagebuilder.py` line 118). -/
def warningChoices : List String :=
  ["warning", "note", "tip", "info"]

/-- The rendered `add_warning` template (`pagebuilder.py` lines 122-128):
sixteen-space indented lines, the title parameter emitted only when the title
is truthy, the icon parameter only when `icon` is false. -/
def warningTemplate (text warning_type : String) (title : Option String) (icon : Bool) :
    String :=
  "\n                <ac:structured-macro ac:name=\"" ++ warning_type ++ "\">\n                "
  ++ (if pyTruthy title then
        "<ac:parameter ac:name=\"title\">" ++ title.getD "" ++ "</ac:parameter>"
      else "")
  ++ "\n                "
  ++ (if icon = false then "<ac:parameter ac:name=\"icon\">false</ac:parameter>" else "")
  ++ "\n                <ac:rich-text-body>" ++ text
  ++ "</ac:rich-text-body>\n                </ac:structured-macro>\n                "

/-- `ConfluencePageBuilder.add_warning` (`pagebuilder.py` lines 110-129): the
warning type is asserted against the allowed list before anything is appended;
an invalid type leaves the accumulator exactly as it was. -/
def add_warning (html : String) (text warning_type : String)
    (title : Option String) (icon : Bool) : String × Except PyError Unit :=
  if warning_type ∈ warningChoices then
    (html ++ warningTemplate text warning_type title icon, .ok ())
  else
    (html, .error (.assertionError "warning_note can only take the forms of note, tip, info and warning"))

/-- `ConfluencePageBuilder.add_table` (`pagebuilder.py` lines 76-86): renders
the data frame with `display.max_colwidth` unset (the option context that the
source comment explains prevents pandas from truncating after 50 characters)
and appends the result. -/
def add_table (html : String) (df : List (List String)) : String × Except PyError Unit :=
  (html ++ dfToHtml df none, .ok ())

/-- `ConfluencePageBuilder.restart` (`pagebuilder.py` lines 262-264): reset
the accumulator to the empty string. -/
def restart (_html : String) : String :=
  ""

/-- `ConfluencePageBuilder.render` (`pagebuilder.py` lines 267-273): return
the accumulated html. -/
def render (html : String) : String :=
  html

end ConfluencePageBuilder

namespace ConfluenceApi

/-- Concrete server used to instantiate the resolution theorems: one space
named `Sp` with key `SP`, one page `T` with id 5 and version 4. -/
def serverA : Server :=
  { spaces := [{ key := "SP", title := "Sp" }]
  , pages := [{ id := 5, title := "T", spaceKey := "SP", body := "old", version := 4 }]
  , attachments := [] }

/-- Concrete server for the attachment claims: page `P` with id 9 carrying a
single attachment named `other.txt`. -/
def serverB : Server :=
  { spaces := [{ key := "SP", title := "Sp" }]
  , pages := [{ id := 9, title := "P", spaceKey := "SP", body := "x", version := 1 }]
  , attachments := [{ id := "att77", title := "other.txt", pageId := 9 }] }

/-- Concrete server for the parent-page claim: the space contains a page whose
title is the empty string, with id 7. -/
def serverC : Server :=
  { spaces := [{ key := "SP", title := "Sp" }]
  , pages := [{ id := 7, title := "", spaceKey := "SP", body := "x", version := 1 }]
  , attachments := [] }

/-- A 51-character cell, one over the pandas default column width of 50. -/
def longCell : String :=
  ⟨List.replicate 51 'z'⟩

end ConfluenceApi

namespace ConfluenceApi

open ConfluencePageBuilder

/-! ## Helper lemmas -/

/-- Folding the rsplit step over characters that contain no slash appends them
all to the accumulator. -/
theorem foldl_slash_reset (l : List Char) (h : ∀ c ∈ l, c ≠ '/') :
    ∀ acc : List Char,
      l.foldl (fun acc c => if c = '/' then [] else acc ++ [c]) acc = acc ++ l := by
  induction l with
  | nil => intro acc; simp
  | cons c t ih =>
    intro acc
    have hc : c ≠ '/' := h c (List.mem_cons_self c t)
    have ht : ∀ d ∈ t, d ≠ '/' := fun d hd => h d (List.mem_cons_of_mem c hd)
    simp only [List.foldl_cons, if_neg hc]
    rw [ih ht (acc ++ [c])]
    simp

/-- Extracting the text after the last slash of an expandable-space path
recovers the space key, provided the key itself contains no slash. -/
theorem rsplitLast_spacePath (key : String) (h : ('/' : Char) ∉ key.data) :
    rsplitLast (spacePath key) = key := by
  obtain ⟨l⟩ := key
  have h2 : ∀ c ∈ l, c ≠ '/' := by
    intro c hc heq
    exact h (heq ▸ hc)
  simp only [rsplitLast, spacePath, rsplitLastAux, String.data_append]
  rw [List.foldl_append]
  rw [show List.foldl (fun acc c => if c = '/' then [] else acc ++ [c]) []
        (String.data "/rest/api/space/") = [] from rfl]
  rw [foldl_slash_reset l h2 []]
  rfl

/-- In a page list with pairwise distinct ids, searching by the id of a member
finds exactly that member. -/
theorem find_by_id (l : List PageRec) (p : PageRec)
    (hnd : (l.map (fun q => q.id)).Nodup) (hmem : p ∈ l) :
    l.find? (fun q => q.id == p.id) = some p := by
  induction l with
  | nil => cases hmem
  | cons a t ih =>
    rw [List.map_cons, List.nodup_cons] at hnd
    rcases List.mem_cons.mp hmem with h | h
    · subst h
      exact List.find?_cons_of_pos t (by simp)
    · by_cases hid : a.id = p.id
      · exact absurd (by rw [hid]; exact List.mem_map_of_mem (fun q => q.id) h) hnd.1
      · rw [List.find?_cons_of_neg t (by simp [hid])]
        exact ih hnd.2 h

/-- In a page list with pairwise distinct ids, two members sharing an id are
the same page. -/
theorem map_nodup_inj (l : List PageRec)
    (hnd : (l.map (fun q => q.id)).Nodup) (a b : PageRec)
    (ha : a ∈ l) (hb : b ∈ l) (hid : a.id = b.id) : a = b := by
  induction l with
  | nil => cases ha
  | cons c t ih =>
    rw [List.map_cons, List.nodup_cons] at hnd
    rcases List.mem_cons.mp ha with h1 | h1 <;> rcases List.mem_cons.mp hb with h2 | h2
    · rw [h1, h2]
    · subst h1
      exact absurd (by rw [hid]; exact List.mem_map_of_mem (fun q => q.id) h2) hnd.1
    · subst h2
      exact absurd (by rw [← hid]; exact List.mem_map_of_mem (fun q => q.id) h1) hnd.1
    · exact ih hnd.2 h1 h2

/-- The server-side page update never changes the id of a page. -/
theorem putFn_id (pageid : Nat) (pl : UpdatePayload) (p : PageRec) :
    (putFn pageid pl p).id = p.id := by
  unfold putFn
  split <;> rfl

/-- Characterization of a successful `update_page` run: once the space key
resolves to `k`, the page query puts `p0` first, and the id lookup finds `p0`,
the call submits exactly the payload built from the fields of `p0` with the
version incremented, and returns the server after the PUT of that payload. -/
theorem update_page_payload_eq (s : Server) (t n b k : String)
    (p0 : PageRec) (rest : List PageRec)
    (hks : get_space_key s n false = .ok k)
    (hq : pageQuery s t k = p0 :: rest)
    (hfind : s.pages.find? (fun q => q.id == p0.id) = some p0) :
    update_page s t n b false =
      .ok ({ id := p0.id, title := p0.title,
             spaceKey := rsplitLast (spacePath p0.spaceKey),
             body := b, versionNumber := p0.version + 1 },
           serverPut s p0.id
             { id := p0.id, title := p0.title,
               spaceKey := rsplitLast (spacePath p0.spaceKey),
               body := b, versionNumber := p0.version + 1 }) := by
  have hpid : get_pageid s t n false = .ok p0.id := by
    unfold get_pageid
    rw [hks]
    show get_pageid_core (pageQuery s t k) = .ok p0.id
    rw [hq]
    rfl
  have hver : get_version s p0.id =
      some ⟨p0.title, spacePath p0.spaceKey, p0.version⟩ := by
    unfold get_version
    rw [hfind]
    rfl
  unfold update_page
  rw [hpid]
  simp only [hver]

/-! ## Claim theorems -/

/-- Claim C2: with the name-as-key bypass flag off, the space lookup fails
with the not-found `ValueError` on zero query matches, fails with the
duplicate-space `ValueError` on more than one match, and returns the key
extracted from the single match otherwise; `get_space_key` with the flag off
is exactly this handling applied to the search response. -/
theorem get_space_key_match_branches (s : Server) (name : String)
    (r r1 r2 : SpaceResult) (rest : List SpaceResult) :
    get_space_key_lookup [] =
      .error (.valueError "Space not found, has it been deleted or is it called something else?") ∧
    get_space_key_lookup (r1 :: r2 :: rest) =
      .error (.valueError "Duplicate space names found please use the spacekey") ∧
    get_space_key_lookup [r] = .ok (rsplitLast r.expandableSpace) ∧
    get_space_key s name false = get_space_key_lookup (spaceSearch s name) :=
  ⟨rfl, rfl, rfl, rfl⟩

/-- Claim C9: restarting the builder and rendering yields the empty string,
and the restarted accumulator is the state of a freshly constructed builder. -/
theorem restart_then_render_empty (b : String) :
    render (restart b) = "" ∧ restart b = ConfluencePageBuilder.init :=
  ⟨rfl, rfl⟩

/-- Claim C10: when the page query returns more than one match, the page
resolution returns the id of the first result with no ambiguity error, while
the space lookup on more than one match raises the duplicate-space
`ValueError`. -/
theorem get_pageid_first_of_many (p1 p2 : PageRec) (prest : List PageRec)
    (r1 r2 : SpaceResult) (srest : List SpaceResult) :
    get_pageid_core (p1 :: p2 :: prest) = .ok p1.id ∧
    get_space_key_lookup (r1 :: r2 :: srest) =
      .error (.valueError "Duplicate space names found please use the spacekey") :=
  ⟨rfl, rfl⟩

end ConfluenceApi

namespace ConfluenceApi

open ConfluencePageBuilder

/-- Claim C6 counterexample: starting from an empty accumulator,
`add_title "X" "h2"` succeeds but the accumulator is the whitespace-padded
template output, not the bare string `<h2>X</h2>`; so the appended fragment
has surrounding characters. -/
theorem add_title_exact_cex :
    add_title "" "X" "h2" = ("\n            <h2>X</h2>\n            ", .ok ()) ∧
    ("\n            <h2>X</h2>\n            " : String) ≠ "<h2>X</h2>" := by
  exact ⟨rfl, by decide⟩

/-- Claim C6 (amended): for a heading among h1..h7 the call appends exactly
the template fragment — a newline and twelve spaces, the element
`<h>title</h>`, a newline and twelve spaces — and any other heading string is
rejected with the assertion error before anything is appended. -/
theorem add_title_padded_fragment (b t h : String) :
    (h ∈ headingChoices →
      add_title b t h =
        (b ++ ("\n            <" ++ h ++ ">" ++ t ++ "</" ++ h ++ ">\n            "),
         .ok ())) ∧
    (h ∉ headingChoices →
      add_title b t h =
        (b, .error (.assertionError
          "heading should be a string representating html heading tag, one of h1..h7"))) := by
  constructor
  · intro hm
    simp [ConfluencePageBuilder.add_title, hm, titleTemplate]
  · intro hm
    simp [ConfluencePageBuilder.add_title, hm]

/-- Claim C6 witness: the amended statement applied at a valid heading and at
the invalid heading h9. -/
theorem add_title_padded_fragment_witness :
    add_title "" "X" "h2" =
      ("" ++ ("\n            <" ++ "h2" ++ ">" ++ "X" ++ "</" ++ "h2" ++ ">\n            "),
       .ok ()) ∧
    add_title "" "X" "h9" =
      ("", .error (.assertionError
        "heading should be a string representating html heading tag, one of h1..h7")) :=
  ⟨(add_title_padded_fragment "" "X" "h2").1 (by decide),
   (add_title_padded_fragment "" "X" "h9").2 (by decide)⟩

/-- Claim C7: any warning type outside warning, note, tip, info makes
`add_warning` fail with the assertion error, and the accumulator component of
the result is exactly the prior accumulator — no markup was appended. -/
theorem add_warning_invalid_unchanged (b text wt : String) (title : Option String)
    (icon : Bool) (h : wt ∉ warningChoices) :
    add_warning b text wt title icon =
      (b, .error (.assertionError
        "warning_note can only take the forms of note, tip, info and warning")) := by
  simp [ConfluencePageBuilder.add_warning, h]

/-- Claim C7 witness: the invalid warning type bogus on a nonempty
accumulator leaves it untouched. -/
theorem add_warning_invalid_unchanged_witness :
    add_warning "acc" "text" "bogus" (some "T") true =
      ("acc", .error (.assertionError
        "warning_note can only take the forms of note, tip, info and warning")) :=
  add_warning_invalid_unchanged "acc" "text" "bogus" (some "T") true (by decide)

/-- Claim C3: whenever the space resolves to key `k`, a page query with at
least one result makes `get_pageid` return the id of the first matching page,
and an empty query result makes it fail with the page-not-found `ValueError`
whose message points at deletion or a different space. -/
theorem get_pageid_resolution (s : Server) (t n k : String)
    (hk : get_space_key s n false = .ok k) :
    (∀ p rest, pageQuery s t k = p :: rest → get_pageid s t n false = .ok p.id) ∧
    (pageQuery s t k = [] →
      get_pageid s t n false =
        .error (.valueError "Page not found, has it been deleted or is it in a differant space?")) := by
  constructor
  · intro p rest hq
    unfold get_pageid
    rw [hk]
    show get_pageid_core (pageQuery s t k) = .ok p.id
    rw [hq]
    rfl
  · intro hq
    unfold get_pageid
    rw [hk]
    show get_pageid_core (pageQuery s t k) = _
    rw [hq]
    rfl

/-- Claim C3 witness: on the concrete one-space, one-page server the page `T`
resolves to id 5 and a missing title fails with the page-not-found error. -/
theorem get_pageid_resolution_witness :
    get_pageid serverA "T" "Sp" false = .ok 5 ∧
    get_pageid serverA "Gone" "Sp" false =
      .error (.valueError "Page not found, has it been deleted or is it in a differant space?") :=
  ⟨(get_pageid_resolution serverA "T" "Sp" "SP" rfl).1
      { id := 5, title := "T", spaceKey := "SP", body := "old", version := 4 } [] rfl,
   (get_pageid_resolution serverA "Gone" "Sp" "SP" rfl).2 rfl⟩

/-- Claim C4 counterexample: on a page whose attachments do not contain the
basename of the uploaded file, the lookup returns nothing and only prints, but
`update_attachment` then raises `TypeError` while concatenating the missing id
into the POST url — no request is issued, contradicting the claim that the
new bytes are posted against the looked-up id. -/
theorem update_attachment_missing_cex :
    get_attachmentid serverB (os_path_basename "demo.txt") 9 =
      (none, ["No attachment found"]) ∧
    update_attachment serverB "demo.txt" "P" "Sp" none false =
      .error (.typeError "can only concatenate str (not NoneType) to str") :=
  ⟨rfl, rfl⟩

/-- Claim C4 (amended): when no attachment of the resolved page matches the
basename, the lookup itself fails silently — it prints `No attachment found`
and returns nothing, raising no error — and `update_attachment` then raises
`TypeError` when building the request url from the missing id, so no POST is
made. -/
theorem update_attachment_missing_raises (s : Server)
    (filepath page_name space_name : String) (comment : Option String) (pageid : Nat)
    (hpid : get_pageid s page_name space_name false = .ok pageid)
    (hmiss : (get_attachmentid s (os_path_basename filepath) pageid).1 = none) :
    (get_attachmentid s (os_path_basename filepath) pageid).2 = ["No attachment found"] ∧
    update_attachment s filepath page_name space_name comment false =
      .error (.typeError "can only concatenate str (not NoneType) to str") := by
  have hpair : get_attachmentid s (os_path_basename filepath) pageid =
      (none, ["No attachment found"]) := by
    unfold get_attachmentid at hmiss ⊢
    cases hfind : (s.attachments.filter (fun a => a.pageId == pageid)).find?
        (fun a => a.title == os_path_basename filepath) with
    | some a => rw [hfind] at hmiss; simp at hmiss
    | none => rfl
  constructor
  · rw [hpair]
  · simp [ConfluenceApi.update_attachment, hpid, hpair, pyStrConcat]

/-- Claim C4 witness: the amended statement applied on the concrete server
whose only attachment is named other.txt. -/
theorem update_attachment_missing_raises_witness :
    (get_attachmentid serverB (os_path_basename "nope.txt") 9).2 = ["No attachment found"] ∧
    update_attachment serverB "nope.txt" "P" "Sp" none false =
      .error (.typeError "can only concatenate str (not NoneType) to str") :=
  update_attachment_missing_raises serverB "nope.txt" "P" "Sp" none 9 rfl rfl

/-- Claim C5 counterexample: the caller supplies the parent title as the empty
string, that title resolves to page id 7, yet the posted payload carries no
ancestors field — the Python truthiness test treats the supplied title as
absent. -/
theorem add_page_empty_parent_cex :
    get_pageid serverC "" "Sp" false = .ok 7 ∧
    add_page serverC "New" "Sp" (some "") "pagebody" false =
      .ok { ptype := "page", title := "New", spaceKey := "SP",
            body := "pagebody", ancestors := none } :=
  ⟨rfl, rfl⟩

/-- Claim C5 (amended): a createPage call supplying a nonempty parent title
yields a payload whose ancestors list is exactly the one-element list of the
resolved parent id; with no parent title, or with the empty-string parent
title, the payload carries no ancestors field. -/
theorem add_page_ancestors (s : Server) (t n b : String) (pl : CreatePayload) :
    (∀ pn, pn ≠ "" → add_page s t n (some pn) b false = .ok pl →
      ∃ ppid, get_pageid s pn n false = .ok ppid ∧ pl.ancestors = some [ppid]) ∧
    (add_page s t n none b false = .ok pl → pl.ancestors = none) ∧
    (add_page s t n (some "") b false = .ok pl → pl.ancestors = none) := by
  refine ⟨?_, ?_, ?_⟩
  · intro pn hpn hok
    unfold add_page at hok
    cases hks : get_space_key s n false with
    | error e => rw [hks] at hok; exact Except.noConfusion hok
    | ok key =>
      rw [hks] at hok
      have htr : pyTruthy (some pn) = true := by
        simp [pyTruthy, hpn]
      rw [htr] at hok
      simp only [if_true] at hok
      cases hp : get_pageid s ((some pn).getD "") n false with
      | error e => rw [hp] at hok; exact Except.noConfusion hok
      | ok ppid =>
        rw [hp] at hok
        refine ⟨ppid, hp, ?_⟩
        have := (Except.ok.injEq _ _).mp hok
        rw [← this]
  · intro hok
    unfold add_page at hok
    cases hks : get_space_key s n false with
    | error e => rw [hks] at hok; exact Except.noConfusion hok
    | ok key =>
      rw [hks] at hok
      have := (Except.ok.injEq _ _).mp hok
      rw [← this]
  · intro hok
    unfold add_page at hok
    cases hks : get_space_key s n false with
    | error e => rw [hks] at hok; exact Except.noConfusion hok
    | ok key =>
      rw [hks] at hok
      have := (Except.ok.injEq _ _).mp hok
      rw [← this]

/-- Claim C5 witness: the amended statement applied on the concrete server,
once with parent title `T` (resolved to id 5) and once with no parent. -/
theorem add_page_ancestors_witness :
    (∃ ppid, get_pageid serverA "T" "Sp" false = .ok ppid ∧
      ({ ptype := "page", title := "New", spaceKey := "SP", body := "b",
         ancestors := some [5] } : CreatePayload).ancestors = some [ppid]) ∧
    ({ ptype := "page", title := "New", spaceKey := "SP", body := "b",
       ancestors := none } : CreatePayload).ancestors = none :=
  ⟨(add_page_ancestors serverA "New" "Sp" "b"
      { ptype := "page", title := "New", spaceKey := "SP", body := "b",
        ancestors := some [5] }).1 "T" (by decide) rfl,
   (add_page_ancestors serverA "New" "Sp" "b"
      { ptype := "page", title := "New", spaceKey := "SP", body := "b",
        ancestors := none }).2.1 rfl⟩

end ConfluenceApi

namespace ConfluenceApi

/-- After a PUT whose payload carries the title, space key and incremented
version of the first page `p0` matched by the (title, key) query, a second
successful `update_page` against the resulting state submits the version of
`p0` plus two: the PUT bumped the stored version by one and changed neither
the title nor the space key of any page, so the second call resolves the same
page and increments again. -/
theorem update_page_after_put (s : Server) (t n b2 k : String) (p0 : PageRec)
    (rest : List PageRec) (pl : UpdatePayload) (pl2 : UpdatePayload) (s2 : Server)
    (hids : (s.pages.map (fun q => q.id)).Nodup)
    (hks : get_space_key s n false = .ok k)
    (hq : pageQuery s t k = p0 :: rest)
    (hplt : pl.title = p0.title)
    (hplk : pl.spaceKey = p0.spaceKey)
    (hplv : pl.versionNumber = p0.version + 1)
    (h2 : update_page (serverPut s p0.id pl) t n b2 false = .ok (pl2, s2)) :
    pl2.versionNumber = p0.version + 1 + 1 := by
  have hp0mem : p0 ∈ s.pages := by
    have hmemq : p0 ∈ pageQuery s t k := by
      rw [hq]; exact List.mem_cons_self p0 rest
    exact (List.mem_filter.mp hmemq).1
  have hFp0 : putFn p0.id pl p0 =
      { id := p0.id, title := p0.title, spaceKey := p0.spaceKey,
        body := pl.body, version := p0.version + 1 } := by
    have hcnd : (p0.id == p0.id && pl.versionNumber == p0.version + 1) = true := by
      rw [hplv]; simp
    unfold putFn
    rw [if_pos hcnd, hplt, hplk, hplv]
  have hidmap : (serverPut s p0.id pl).pages.map (fun q => q.id) =
      s.pages.map (fun q => q.id) := by
    show (s.pages.map (putFn p0.id pl)).map (fun q => q.id) =
      s.pages.map (fun q => q.id)
    rw [List.map_map]
    exact List.map_congr_left (fun q _ => putFn_id p0.id pl q)
  have hids2 : ((serverPut s p0.id pl).pages.map (fun q => q.id)).Nodup := by
    rw [hidmap]; exact hids
  have hmem2 :
      ({ id := p0.id, title := p0.title, spaceKey := p0.spaceKey,
         body := pl.body, version := p0.version + 1 } : PageRec) ∈
        (serverPut s p0.id pl).pages := by
    rw [← hFp0]
    show putFn p0.id pl p0 ∈ s.pages.map (putFn p0.id pl)
    exact List.mem_map_of_mem (putFn p0.id pl) hp0mem
  have hks2 : get_space_key (serverPut s p0.id pl) n false = .ok k := hks
  have hq2 : pageQuery (serverPut s p0.id pl) t k =
      { id := p0.id, title := p0.title, spaceKey := p0.spaceKey,
        body := pl.body, version := p0.version + 1 } :: rest.map (putFn p0.id pl) := by
    show (s.pages.map (putFn p0.id pl)).filter
        (fun p => p.title == t && p.spaceKey == k) =
      { id := p0.id, title := p0.title, spaceKey := p0.spaceKey,
        body := pl.body, version := p0.version + 1 } :: rest.map (putFn p0.id pl)
    rw [List.filter_map]
    have hcong : s.pages.filter
        ((fun p : PageRec => p.title == t && p.spaceKey == k) ∘ putFn p0.id pl) =
        s.pages.filter (fun p : PageRec => p.title == t && p.spaceKey == k) := by
      apply List.filter_congr
      intro q hqm
      show ((putFn p0.id pl q).title == t && (putFn p0.id pl q).spaceKey == k) =
        (q.title == t && q.spaceKey == k)
      by_cases hcnd : (q.id == p0.id && pl.versionNumber == q.version + 1) = true
      · have hcnd2 := hcnd
        simp only [Bool.and_eq_true, beq_iff_eq] at hcnd2
        have hq0 : q = p0 := map_nodup_inj s.pages hids q p0 hqm hp0mem hcnd2.1
        subst hq0
        rw [hFp0]
      · have hskip : putFn p0.id pl q = q := by
          unfold putFn; rw [if_neg hcnd]
        rw [hskip]
    rw [hcong]
    have hfq : s.pages.filter (fun p : PageRec => p.title == t && p.spaceKey == k) =
        p0 :: rest := hq
    rw [hfq, List.map_cons, hFp0]
  have hfind2 : (serverPut s p0.id pl).pages.find? (fun q => q.id == p0.id) =
      some { id := p0.id, title := p0.title, spaceKey := p0.spaceKey,
             body := pl.body, version := p0.version + 1 } :=
    find_by_id (serverPut s p0.id pl).pages
      { id := p0.id, title := p0.title, spaceKey := p0.spaceKey,
        body := pl.body, version := p0.version + 1 } hids2 hmem2
  have hchar2 := update_page_payload_eq (serverPut s p0.id pl) t n b2 k
      { id := p0.id, title := p0.title, spaceKey := p0.spaceKey,
        body := pl.body, version := p0.version + 1 }
      (rest.map (putFn p0.id pl)) hks2 hq2 hfind2
  have hok2 := hchar2.symm.trans h2
  have hps2 := (Except.ok.injEq _ _).mp hok2
  have hpl2 : pl2 =
      { id := p0.id, title := p0.title,
        spaceKey := rsplitLast (spacePath p0.spaceKey),
        body := b2, versionNumber := p0.version + 1 + 1 } :=
    (congrArg Prod.fst hps2).symm
  rw [hpl2]

/-- Claim C1: on a well-formed server (pairwise distinct page ids, slash-free
space keys), a successful `update_page` submits a payload whose version number
equals the version fetched for that page immediately before the PUT, plus one;
and a second successful `update_page` of the same page in sequence submits the
first submitted version plus one — two more than the original. -/
theorem update_page_submits_incremented_versions (s : Server) (t n b1 b2 : String)
    (pl1 pl2 : UpdatePayload) (s1 s2 : Server)
    (hids : (s.pages.map (fun q => q.id)).Nodup)
    (hkeys : ∀ p ∈ s.pages, ('/' : Char) ∉ p.spaceKey.data)
    (h1 : update_page s t n b1 false = .ok (pl1, s1))
    (h2 : update_page s1 t n b2 false = .ok (pl2, s2)) :
    (∃ info, get_version s pl1.id = some info ∧
      pl1.versionNumber = info.versionNumber + 1) ∧
    pl2.versionNumber = pl1.versionNumber + 1 := by
  cases hks : get_space_key s n false with
  | error e =>
    have hpe : get_pageid s t n false = .error e := by
      unfold get_pageid; rw [hks]
    have hue : update_page s t n b1 false = .error e := by
      unfold update_page; rw [hpe]
    rw [hue] at h1
    exact Except.noConfusion h1
  | ok k =>
    cases hq : pageQuery s t k with
    | nil =>
      have hpe : get_pageid s t n false =
          .error (.valueError "Page not found, has it been deleted or is it in a differant space?") := by
        unfold get_pageid
        rw [hks]
        show get_pageid_core (pageQuery s t k) = _
        rw [hq]
        rfl
      have hue : update_page s t n b1 false =
          .error (.valueError "Page not found, has it been deleted or is it in a differant space?") := by
        unfold update_page; rw [hpe]
      rw [hue] at h1
      exact Except.noConfusion h1
    | cons p0 rest =>
      have hp0mem : p0 ∈ s.pages := by
        have hmemq : p0 ∈ pageQuery s t k := by
          rw [hq]; exact List.mem_cons_self p0 rest
        exact (List.mem_filter.mp hmemq).1
      have hfind : s.pages.find? (fun q => q.id == p0.id) = some p0 :=
        find_by_id s.pages p0 hids hp0mem
      have hkey0 : rsplitLast (spacePath p0.spaceKey) = p0.spaceKey :=
        rsplitLast_spacePath p0.spaceKey (hkeys p0 hp0mem)
      have hchar1 := update_page_payload_eq s t n b1 k p0 rest hks hq hfind
      rw [hkey0] at hchar1
      have hok1 := hchar1.symm.trans h1
      have hps1 := (Except.ok.injEq _ _).mp hok1
      have hpl1 : pl1 =
          { id := p0.id, title := p0.title, spaceKey := p0.spaceKey,
            body := b1, versionNumber := p0.version + 1 } :=
        (congrArg Prod.fst hps1).symm
      have hs1 : s1 = serverPut s p0.id
          { id := p0.id, title := p0.title, spaceKey := p0.spaceKey,
            body := b1, versionNumber := p0.version + 1 } :=
        (congrArg Prod.snd hps1).symm
      constructor
      · refine ⟨⟨p0.title, spacePath p0.spaceKey, p0.version⟩, ?_, ?_⟩
        · rw [hpl1]
          show (s.pages.find? (fun q => q.id == p0.id)).map
              (fun p => VersionInfo.mk p.title (spacePath p.spaceKey) p.version) =
            some ⟨p0.title, spacePath p0.spaceKey, p0.version⟩
          rw [hfind]
          rfl
        · rw [hpl1]
      · have h2s : update_page (serverPut s p0.id
            { id := p0.id, title := p0.title, spaceKey := p0.spaceKey,
              body := b1, versionNumber := p0.version + 1 }) t n b2 false =
            .ok (pl2, s2) := by
          rw [← hs1]; exact h2
        have hconc := update_page_after_put s t n b2 k p0 rest
            { id := p0.id, title := p0.title, spaceKey := p0.spaceKey,
              body := b1, versionNumber := p0.version + 1 } pl2 s2
            hids hks hq rfl rfl rfl h2s
        rw [hconc, hpl1]

/-- Claim C1 witness: on the concrete one-page server at version 4, the two
successive updates submit versions 5 and then 6. -/
theorem update_page_submits_incremented_versions_witness :
    (∃ info, get_version serverA
        ({ id := 5, title := "T", spaceKey := "SP", body := "b1",
           versionNumber := 5 } : UpdatePayload).id = some info ∧
      ({ id := 5, title := "T", spaceKey := "SP", body := "b1",
         versionNumber := 5 } : UpdatePayload).versionNumber = info.versionNumber + 1) ∧
    ({ id := 5, title := "T", spaceKey := "SP", body := "b2",
       versionNumber := 6 } : UpdatePayload).versionNumber =
      ({ id := 5, title := "T", spaceKey := "SP", body := "b1",
         versionNumber := 5 } : UpdatePayload).versionNumber + 1 :=
  update_page_submits_incremented_versions serverA "T" "Sp" "b1" "b2"
    { id := 5, title := "T", spaceKey := "SP", body := "b1", versionNumber := 5 }
    { id := 5, title := "T", spaceKey := "SP", body := "b2", versionNumber := 6 }
    { spaces := [{ key := "SP", title := "Sp" }]
    , pages := [{ id := 5, title := "T", spaceKey := "SP", body := "b1", version := 5 }]
    , attachments := [] }
    { spaces := [{ key := "SP", title := "Sp" }]
    , pages := [{ id := 5, title := "T", spaceKey := "SP", body := "b2", version := 6 }]
    , attachments := [] }
    (by decide) (by decide) rfl rfl

/-- Claim C8 (code bug): `add_table_to_page` renders the table through the
default pandas column width of 50, so a 51-character cell is submitted to
`update_page` truncated to its first 47 characters plus three dots — the full
cell text does not appear anywhere in the submitted body, although the
rendered table is indeed passed to `update_page` as the body. -/
theorem add_table_to_page_truncation_bug :
    add_table_to_page serverA "T" "Sp" [[longCell]] =
      .ok ({ id := 5, title := "T", spaceKey := "SP",
             body := dfToHtml [[longCell]] (some 50), versionNumber := 5 },
           { spaces := [{ key := "SP", title := "Sp" }]
           , pages := [{ id := 5, title := "T", spaceKey := "SP",
                         body := dfToHtml [[longCell]] (some 50), version := 5 }]
           , attachments := [] }) ∧
    longCell.data.count 'z' = 51 ∧
    (dfToHtml [[longCell]] (some 50)).data.count 'z' = 47 ∧
    ¬ List.IsInfix longCell.data (dfToHtml [[longCell]] (some 50)).data := by
  refine ⟨rfl, by decide, by decide, ?_⟩
  intro hinf
  have hc := hinf.sublist.count_le 'z'
  rw [(by decide : longCell.data.count 'z' = 51),
      (by decide : (dfToHtml [[longCell]] (some 50)).data.count 'z' = 47)] at hc
  omega

end ConfluenceApi
